import Mathlib

/-!
Shallow embedding of the EnemyClicker progression and economy core
(src/player.py, src/perk.py, src/enemy.py, src/game.py).

Modelling conventions:
* Python ints are modelled as Lean integers (no overflow in CPython).
* Python floats are modelled as exact rationals; the constants involved
  (1.2, 0.2, 0.01, ...) and the arithmetic on them stay well within the
  regime where IEEE doubles track the exact values closely enough that every
  comparison and conversion appearing in the claims is unaffected.
* The float-to-int conversion int(x) truncates toward zero: pyInt.
* The Python built-in round rounds half to even: pyRound.
* random.randint(a, b) draws uniformly from the closed interval [a, b];
  we model a drawn value as an explicit parameter and the support of the
  generator as the Finset randint a b.
* random.uniform and the float square root in the loot formula are modelled
  over the real numbers, with the drawn value passed as a parameter.
-/

/-- Python int(x) conversion for a rational x: truncation toward zero. -/
def pyInt (q : ℚ) : ℤ :=
  if 0 ≤ q then ⌊q⌋ else -⌊-q⌋

/-- Python int(x) conversion for a real x: truncation toward zero. -/
noncomputable def pyIntR (x : ℝ) : ℤ :=
  if 0 ≤ x then ⌊x⌋ else -⌊-x⌋

/-- Python round(x) built-in: round half to even. -/
def pyRound (q : ℚ) : ℤ :=
  let f := ⌊q⌋
  let r := q - f
  if r < 1/2 then f
  else if 1/2 < r then f + 1
  else if f % 2 = 0 then f else f + 1

/-- Support of Python random.randint(a, b): the closed interval [a, b]. -/
def randint (a b : ℤ) : Finset ℤ := Finset.Icc a b

theorem pyInt_of_nonneg {q : ℚ} (h : 0 ≤ q) : pyInt q = ⌊q⌋ := by
  simp [pyInt, h]

theorem pyInt_intCast (n : ℤ) : pyInt (n : ℚ) = n := by
  rcases le_or_lt 0 (n : ℚ) with h | h
  · rw [pyInt_of_nonneg h, Int.floor_intCast]
  · simp only [pyInt, not_le.mpr h, if_false]
    rw [show (-(n : ℚ)) = ((-n : ℤ) : ℚ) by push_cast; ring, Int.floor_intCast]
    ring

theorem pyRound_intCast (n : ℤ) : pyRound (n : ℚ) = n := by
  simp [pyRound, Int.floor_intCast]

/-- Round half to even is at least the floor. -/
theorem le_pyRound_of_floor {q : ℚ} : ⌊q⌋ ≤ pyRound q := by
  simp only [pyRound]
  split
  · exact le_refl _
  · split
    · exact Int.le.intro 1 rfl
    · split
      · exact le_refl _
      · exact Int.le.intro 1 rfl

theorem one_le_pyRound {q : ℚ} (h : 1/2 < q) : 1 ≤ pyRound q := by
  rcases le_or_lt 1 q with h1 | h1
  · calc (1 : ℤ) = ⌊(1 : ℚ)⌋ := by norm_num
    _ ≤ ⌊q⌋ := Int.floor_le_floor h1
    _ ≤ pyRound q := le_pyRound_of_floor
  · have hf : ⌊q⌋ = 0 := by
      rw [Int.floor_eq_zero_iff]
      constructor
      · linarith
      · simpa using h1
    simp only [pyRound, hf]
    norm_num
    rw [if_neg (not_lt.mpr (le_of_lt h)), if_pos h]

/-! ## Player  (src/player.py) -/

/-- State of the Player dataclass: its five declared fields. -/
structure Player where
  loot : ℤ
  loot_bonus : ℤ
  base_damage : ℤ
  critical_damage : ℤ
  critical_rate : ℤ
  deriving DecidableEq

/-- Serialized player document: asdict of the five dataclass fields. -/
structure PlayerData where
  loot : ℤ
  loot_bonus : ℤ
  base_damage : ℤ
  critical_damage : ℤ
  critical_rate : ℤ
  deriving DecidableEq

namespace Player

/-- Player.__init__: stores each argument, except that base_damage is the
argument plus a fixed offset of 5. -/
def init (loot loot_bonus base_damage critical_damage critical_rate : ℤ) : Player :=
  { loot := loot
    loot_bonus := loot_bonus
    base_damage := base_damage + 5
    critical_damage := critical_damage
    critical_rate := critical_rate }

/-- Player.calculate_reward: reward *= (1 + loot_bonus / 100); int(reward). -/
def calculate_reward (p : Player) (reward : ℤ) : ℤ :=
  pyInt ((reward : ℚ) * (1 + (p.loot_bonus : ℚ) / 100))

/-- Player.calculate_damage, with the value drawn by random.randint(0, 100)
passed explicitly: damage = base_damage; if draw < critical_rate then
damage *= (1 + critical_damage / 100); return int(damage). -/
def calculate_damage (p : Player) (draw : ℤ) : ℤ :=
  let damage : ℚ := (p.base_damage : ℚ)
  let damage := if draw < p.critical_rate then damage * (1 + (p.critical_damage : ℚ) / 100) else damage
  pyInt damage

/-- Player.serialize: asdict over the five dataclass fields. -/
def serialize (p : Player) : PlayerData :=
  { loot := p.loot
    loot_bonus := p.loot_bonus
    base_damage := p.base_damage
    critical_damage := p.critical_damage
    critical_rate := p.critical_rate }

/-- Player.deserialize: setattr for every key of the document; the document
produced by serialize carries all five fields, so every field is replaced. -/
def deserialize (_p : Player) (d : PlayerData) : Player :=
  { loot := d.loot
    loot_bonus := d.loot_bonus
    base_damage := d.base_damage
    critical_damage := d.critical_damage
    critical_rate := d.critical_rate }

end Player

/-! ## Perk  (src/perk.py) -/

/-- State of the Perk dataclass: its six declared fields. -/
structure PerkState where
  name : String
  base_price : ℤ
  base_bonus : ℤ
  price_scale : ℚ
  bonus_scale : ℚ
  level : ℕ
  deriving DecidableEq

/-- Serialized perk document: asdict of the six dataclass fields. -/
structure PerkData where
  name : String
  base_price : ℤ
  base_bonus : ℤ
  price_scale : ℚ
  bonus_scale : ℚ
  level : ℕ
  deriving DecidableEq

namespace PerkState

/-- Perk.get_price: int(base_price * price_scale ** level). -/
def get_price (p : PerkState) : ℤ :=
  pyInt ((p.base_price : ℚ) * p.price_scale ^ p.level)

/-- Perk.get_bonus: int(base_bonus + level * bonus_scale). -/
def get_bonus (p : PerkState) : ℤ :=
  pyInt ((p.base_bonus : ℚ) + (p.level : ℚ) * p.bonus_scale)

/-- Perk.upgrade: level += 1. -/
def upgrade (p : PerkState) : PerkState :=
  { p with level := p.level + 1 }

/-- Perk.serialize: asdict over the six dataclass fields. -/
def serialize (p : PerkState) : PerkData :=
  { name := p.name
    base_price := p.base_price
    base_bonus := p.base_bonus
    price_scale := p.price_scale
    bonus_scale := p.bonus_scale
    level := p.level }

/-- Perk.deserialize: setattr for every key of the document. -/
def deserialize (_p : PerkState) (d : PerkData) : PerkState :=
  { name := d.name
    base_price := d.base_price
    base_bonus := d.base_bonus
    price_scale := d.price_scale
    bonus_scale := d.bonus_scale
    level := d.level }

end PerkState

/-- The four concrete perk variants; each is bound to one Player stat. -/
inductive PerkKind
  | cr   -- CritRatePerk    -> critical_rate
  | cd   -- CritDmgPerk     -> critical_damage
  | lb   -- LootBonusPerk   -> loot_bonus
  | db   -- DamageBonusPerk -> base_damage
  deriving DecidableEq

/-- Constructor constants of the four variants (name, base_price,
base_bonus), each with the Perk.__init__ defaults price_scale = 1.2,
bonus_scale = 1 and level = 0. -/
def PerkKind.init : PerkKind → PerkState
  | .cr => { name := "CR", base_price := 100, base_bonus := 1, price_scale := 6/5, bonus_scale := 1, level := 0 }
  | .cd => { name := "CD", base_price := 50, base_bonus := 5, price_scale := 6/5, bonus_scale := 1, level := 0 }
  | .lb => { name := "LB", base_price := 100, base_bonus := 2, price_scale := 6/5, bonus_scale := 1, level := 0 }
  | .db => { name := "DB", base_price := 50, base_bonus := 5, price_scale := 6/5, bonus_scale := 1, level := 0 }

/-- The player stat a perk variant is bound to. -/
def PerkKind.boundStat : PerkKind → Player → ℤ
  | .cr, p => p.critical_rate
  | .cd, p => p.critical_damage
  | .lb, p => p.loot_bonus
  | .db, p => p.base_damage

/-- Variant-specific Perk.apply: add get_bonus() to the bound player stat,
then upgrade() the perk (in that order, so the bonus uses the pre-upgrade
level). Returns the updated perk and player. -/
def PerkKind.apply : PerkKind → PerkState → Player → PerkState × Player
  | .cr, pk, pl => (pk.upgrade, { pl with critical_rate := pl.critical_rate + pk.get_bonus })
  | .cd, pk, pl => (pk.upgrade, { pl with critical_damage := pl.critical_damage + pk.get_bonus })
  | .lb, pk, pl => (pk.upgrade, { pl with loot_bonus := pl.loot_bonus + pk.get_bonus })
  | .db, pk, pl => (pk.upgrade, { pl with base_damage := pl.base_damage + pk.get_bonus })

/-- Game.buy_perk: if player.loot >= perk.get_price() then deduct
perk.get_price() from player.loot and call perk.apply(player); otherwise do
nothing (the purchase is silently rejected). -/
def buyPerk (k : PerkKind) (pk : PerkState) (pl : Player) : PerkState × Player :=
  if pk.get_price ≤ pl.loot then
    k.apply pk { pl with loot := pl.loot - pk.get_price }
  else (pk, pl)

/-! ## Enemy  (src/enemy.py) -/

/-- A pygame Surface, abstracted to its size and RGBA pixel bytes. -/
structure Surface where
  width : ℕ
  height : ℕ
  pixels : List ℕ
  deriving DecidableEq

/-- Serialized surface document: width, height and the byte string produced
by pygame.image.tostring(surface, RGBA). -/
structure SerializedSurface where
  width : ℕ
  height : ℕ
  image : List ℕ
  deriving DecidableEq

/-- A pygame Rect (left, top, width, height). -/
structure Rect where
  x : ℤ
  y : ℤ
  w : ℤ
  h : ℤ
  deriving DecidableEq

/-- pygame Rect.collidepoint: a point along the right or bottom edge is not
considered inside. -/
def Rect.collidepoint (r : Rect) (p : ℤ × ℤ) : Prop :=
  r.x ≤ p.1 ∧ p.1 < r.x + r.w ∧ r.y ≤ p.2 ∧ p.2 < r.y + r.h

instance (r : Rect) (p : ℤ × ℤ) : Decidable (r.collidepoint p) := by
  unfold Rect.collidepoint; infer_instance

/-- Which of the two frame lists current_animation refers to. In the source
current_animation is always a reference to idle_frames or to death_frames,
and the equality tests against those attributes distinguish exactly these
two cases, so it is modelled as a tag. -/
inductive AnimTag
  | idle
  | death
  deriving DecidableEq

/-- The asset provider: for a tier index (enemy_count mod levels) it returns
the ordered (idle frames, death frames) found on disk by glob. -/
def Assets : Type := ℕ → List Surface × List Surface

/-- State of the Enemy object. The first six fields are the declared
dataclass fields (the only ones asdict serializes); the rest are plain
instance attributes set in Enemy.__init__. -/
structure Enemy where
  base_health : ℤ
  health : ℤ
  base_health_increase : ℤ
  base_health_growth_rate : ℚ
  base_health_growth_factor : ℚ
  enemy_count : ℕ
  levels : ℕ
  position : ℤ × ℤ
  death_frames : List Surface
  idle_frames : List Surface
  current_animation : AnimTag
  current_frame_index : ℤ
  animation_speed : ℚ
  animation_timer : ℚ
  size : ℤ × ℤ
  rect : Rect
  original_size : ℤ × ℤ
  shrink_duration : ℚ
  grow_duration : ℚ
  shrink_timer : ℚ
  grow_timer : ℚ
  is_shrinking : Bool
  is_growing : Bool
  is_dead : Bool
  deriving DecidableEq

/-- Serialized enemy document: asdict of the six dataclass fields plus the
serialized idle and death frame lists. -/
structure EnemyData where
  base_health : ℤ
  health : ℤ
  base_health_increase : ℤ
  base_health_growth_rate : ℚ
  base_health_growth_factor : ℚ
  enemy_count : ℕ
  idle_frames : List SerializedSurface
  death_frames : List SerializedSurface
  deriving DecidableEq

namespace Enemy

/-- Enemy.__init__ at a given position; the frame lists are what
load_idle_frames and load_death_frames glob for tier enemy_count mod levels
(= tier 0). -/
def init (position : ℤ × ℤ) (assets : Assets) : Enemy :=
  { levels := 7
    enemy_count := 0
    position := position
    death_frames := (assets 0).2
    idle_frames := (assets 0).1
    current_animation := .idle
    current_frame_index := 0
    animation_speed := 1/10
    animation_timer := 0
    size := (250, 250)
    rect := { x := position.1, y := position.2, w := 250, h := 250 }
    original_size := (250, 250)
    shrink_duration := 1/10
    grow_duration := 1/10
    shrink_timer := 0
    grow_timer := 0
    is_shrinking := false
    is_growing := false
    base_health := 10
    health := 10
    is_dead := false
    base_health_increase := 5
    base_health_growth_rate := 1/5
    base_health_growth_factor := 1 }

/-- The frame list current_animation refers to. -/
def currentFrames (e : Enemy) : List Surface :=
  match e.current_animation with
  | .idle => e.idle_frames
  | .death => e.death_frames

/-- Enemy.calculate_loot_count, with the random.uniform(0.8, 1.2) draw
passed explicitly: scaling_factor = 1 / base_health ** 0.5;
int(base_health * scaling_factor * u). -/
noncomputable def calculate_loot_count (e : Enemy) (u : ℝ) : ℤ :=
  let scaling_factor : ℝ := 1 / Real.sqrt (e.base_health : ℝ)
  pyIntR ((e.base_health : ℝ) * scaling_factor * u)

/-- Enemy.hit: health -= damage; if health <= 0 return calculate_loot_count
else return 0. Returns the updated enemy and the returned loot count. -/
noncomputable def hit (e : Enemy) (damage : ℤ) (u : ℝ) : Enemy × ℤ :=
  let e := { e with health := e.health - damage }
  if e.health ≤ 0 then (e, e.calculate_loot_count u) else (e, 0)

/-- Enemy.increase_health: base_health += round(base_health_increase *
base_health_growth_factor). -/
def increase_health (e : Enemy) : Enemy :=
  { e with base_health :=
      e.base_health + pyRound ((e.base_health_increase : ℚ) * e.base_health_growth_factor) }

/-- Enemy.play_click_animation: only acts while the idle animation is
current. -/
def play_click_animation (e : Enemy) : Enemy :=
  if e.current_animation = .idle then
    { e with current_frame_index := 0, animation_timer := 0,
             is_shrinking := true, shrink_timer := 0 }
  else e

/-- Enemy.play_death_animation: only acts if the death animation is not
already current. -/
def play_death_animation (e : Enemy) : Enemy :=
  if e.current_animation ≠ .death then
    { e with current_animation := .death, current_frame_index := 0, animation_timer := 0 }
  else e

/-- Enemy.play_idle_animation: only acts if the idle animation is not
already current. -/
def play_idle_animation (e : Enemy) : Enemy :=
  if e.current_animation ≠ .idle then
    { e with current_animation := .idle, current_frame_index := 0, animation_timer := 0,
             is_shrinking := false, is_growing := false, size := e.original_size }
  else e

/-- Enemy.reset_health: is_dead = False; play_idle_animation();
health = base_health. -/
def reset_health (e : Enemy) : Enemy :=
  let e := { e with is_dead := false }
  let e := e.play_idle_animation
  { e with health := e.base_health }

/-- Enemy.update_frames: reload both frame lists for tier
enemy_count mod levels. -/
def update_frames (assets : Assets) (e : Enemy) : Enemy :=
  { e with idle_frames := (assets (e.enemy_count % e.levels)).1,
           death_frames := (assets (e.enemy_count % e.levels)).2 }

/-- First block of Enemy.update: when health <= 0 and the enemy is not yet
marked dead, count the kill, set is_dead and start the death animation. -/
def deathPhase (e : Enemy) : Enemy :=
  if e.health ≤ 0 ∧ ¬e.is_dead then
    play_death_animation { e with enemy_count := e.enemy_count + 1, is_dead := true }
  else e

/-- Condition of the early-return block of Enemy.update: the enemy is dead
and the current animation sits on its last frame. -/
def deathEndCond (e : Enemy) : Prop :=
  e.is_dead = true ∧ e.current_frame_index = (e.currentFrames.length : ℤ) - 1

instance (e : Enemy) : Decidable e.deathEndCond := by
  unfold deathEndCond; infer_instance

/-- Growth step of the death-end block: base_health_growth_factor +=
base_health_growth_rate. -/
def growthStep (e : Enemy) : Enemy :=
  { e with base_health_growth_factor :=
      e.base_health_growth_factor + e.base_health_growth_rate }

/-- Shrink block of Enemy.update. -/
def shrinkStep (e : Enemy) : Enemy :=
  if e.is_shrinking then
    let t := e.shrink_timer + 1/100
    let e := { e with shrink_timer := t,
                      size := (pyInt ((e.original_size.1 : ℚ) * (1 - t / e.shrink_duration)),
                               pyInt ((e.original_size.2 : ℚ) * (1 - t / e.shrink_duration))) }
    if e.shrink_duration ≤ e.shrink_timer then
      { e with is_shrinking := false, is_growing := true, grow_timer := 0 }
    else e
  else e

/-- Grow block of Enemy.update. -/
def growStep (e : Enemy) : Enemy :=
  if e.is_growing then
    let t := e.grow_timer + 1/100
    let e := { e with grow_timer := t,
                      size := (pyInt ((e.original_size.1 : ℚ) * (t / e.grow_duration)),
                               pyInt ((e.original_size.2 : ℚ) * (t / e.grow_duration))) }
    if e.grow_duration ≤ e.grow_timer then
      { e with is_growing := false, size := e.original_size }
    else e
  else e

/-- Rect update block of Enemy.update (Python floor division). -/
def rectStep (e : Enemy) : Enemy :=
  { e with rect := { x := e.position.1 - Int.fdiv e.size.1 2,
                     y := e.position.2 - Int.fdiv e.size.2 2,
                     w := e.size.1, h := e.size.2 } }

/-- Animation-timer block of Enemy.update; the Python modulo on a positive
list length agrees with emod. -/
def animStep (e : Enemy) : Enemy :=
  let t := e.animation_timer + 1/100
  if e.animation_speed ≤ t then
    { e with animation_timer := 0,
             current_frame_index := (e.current_frame_index + 1).emod (e.currentFrames.length : ℤ) }
  else { e with animation_timer := t }

/-- Animation-speed block of Enemy.update: min_speed = 0.02,
max_speed = 0.2, threshold_frames = 5. -/
def speedStep (e : Enemy) : Enemy :=
  let num_frames : ℚ := (e.currentFrames.length : ℚ)
  if 5 < num_frames then
    let adjusted := (num_frames - 5) / num_frames * (1/5 - 1/50)
    { e with animation_speed := 1/5 - adjusted }
  else { e with animation_speed := 1/5 }

/-- Enemy.update: death detection, then either the edge-triggered death-end
block (update_frames, growth, increase_health, reset_health,
play_idle_animation, early return) or the regular shrink, grow, rect,
animation-timer and animation-speed blocks. -/
def update (assets : Assets) (e : Enemy) : Enemy :=
  let e := e.deathPhase
  if e.deathEndCond then
    ((((e.update_frames assets).growthStep).increase_health).reset_health).play_idle_animation
  else
    ((((e.shrinkStep).growStep).rectStep).animStep).speedStep

/-- pygame.image.tostring(surface, RGBA): the raw pixel bytes. -/
def tostring (s : Surface) : List ℕ := s.pixels

/-- Enemy.serialize_surface. -/
def serialize_surface (s : Surface) : SerializedSurface :=
  { width := s.width, height := s.height, image := tostring s }

/-- Enemy.serialize_frames. -/
def serialize_frames (frames : List Surface) : List SerializedSurface :=
  frames.map serialize_surface

/-- Enemy.serialize: asdict of the six dataclass fields, plus the two
serialized frame lists. The is_dead attribute is not a dataclass field and
therefore does not appear in the document. -/
def serialize (e : Enemy) : EnemyData :=
  { base_health := e.base_health
    health := e.health
    base_health_increase := e.base_health_increase
    base_health_growth_rate := e.base_health_growth_rate
    base_health_growth_factor := e.base_health_growth_factor
    enemy_count := e.enemy_count
    idle_frames := serialize_frames e.idle_frames
    death_frames := serialize_frames e.death_frames }

/-- Enemy.deserialize_surface: pygame.image.fromstring of the stored bytes
at the stored size. -/
def deserialize_surface (d : SerializedSurface) : Surface :=
  { width := d.width, height := d.height, pixels := d.image }

/-- Enemy.deserialize_frames. -/
def deserialize_frames (ds : List SerializedSurface) : List Surface :=
  ds.map deserialize_surface

/-- Enemy.deserialize: setattr for every key of the document (the frame
lists going through deserialize_frames), then current_animation is set from
the in-memory is_dead flag, which the document does not carry. -/
def deserialize (e : Enemy) (d : EnemyData) : Enemy :=
  let e := { e with
    base_health := d.base_health
    health := d.health
    base_health_increase := d.base_health_increase
    base_health_growth_rate := d.base_health_growth_rate
    base_health_growth_factor := d.base_health_growth_factor
    enemy_count := d.enemy_count
    idle_frames := deserialize_frames d.idle_frames
    death_frames := deserialize_frames d.death_frames }
  if e.is_dead then { e with current_animation := .death }
  else { e with current_animation := .idle }

end Enemy

/-- Player.click, with the two random draws passed explicitly: a no-op
unless the click position lies inside the enemy rect and the enemy is not
dead; otherwise play the click animation, deal calculate_damage, and credit
calculate_reward of the loot returned by hit. -/
noncomputable def Player.click (p : Player) (mouse_pos : ℤ × ℤ) (e : Enemy)
    (draw : ℤ) (u : ℝ) : Player × Enemy :=
  if e.rect.collidepoint mouse_pos ∧ ¬e.is_dead then
    let e := e.play_click_animation
    let damage := p.calculate_damage draw
    let r := e.hit damage u
    ({ p with loot := p.loot + p.calculate_reward r.2 }, r.1)
  else (p, e)

/-! ## Game save/load surface  (src/game.py) -/

/-- In-memory game session: the player, the enemy and the four perks owned
by the Game object. -/
structure Game where
  player : Player
  enemy : Enemy
  crit_rate_perk : PerkState
  crit_dmg_perk : PerkState
  loot_bonus_perk : PerkState
  damage_bonus_perk : PerkState
  deriving DecidableEq

/-- The parsed JSON save document. Each entry is optional: a dict read back
from disk may lack any of the keys, and a missing key raises KeyError at
the corresponding subscript. -/
structure RawSave where
  player : Option PlayerData
  enemy : Option EnemyData
  cr : Option PerkData
  cd : Option PerkData
  ld : Option PerkData
  db : Option PerkData
  deriving DecidableEq

/-- The save.json file as load_game finds it: absent (FileNotFoundError),
present but not valid JSON (json.load raises), or a parsed document. -/
inductive SaveFile
  | missing
  | corrupt
  | doc (d : RawSave)
  deriving DecidableEq

/-- Result of Game.load_game: either a normal return or an uncaught
exception escaping the method; in both cases the in-memory session as the
method leaves it. -/
inductive LoadOutcome
  | ok (g : Game)
  | raised (g : Game)
  deriving DecidableEq

/-- The in-memory session after a load attempt, whether or not an
exception escaped. -/
def LoadOutcome.stateOf : LoadOutcome → Game
  | .ok g => g
  | .raised g => g

/-- Whether an uncaught exception escaped load_game. -/
def LoadOutcome.isRaised : LoadOutcome → Bool
  | .ok _ => false
  | .raised _ => true

namespace Game

/-- Game.save_game: a document with all six entries, each entity
serialized. -/
def save_game (g : Game) : RawSave :=
  { player := some g.player.serialize
    enemy := some g.enemy.serialize
    cr := some g.crit_rate_perk.serialize
    cd := some g.crit_dmg_perk.serialize
    ld := some g.loot_bonus_perk.serialize
    db := some g.damage_bonus_perk.serialize }

/-- Game.load_game: only FileNotFoundError is caught; a parse failure or a
missing key raises out of the method, leaving whatever had already been
deserialized in place. Deserialization order follows the source: enemy,
player, cr, cd, ld, db. -/
def load_game (file : SaveFile) (g : Game) : LoadOutcome :=
  match file with
  | .missing => .ok g
  | .corrupt => .raised g
  | .doc d =>
    match d.enemy with
    | none => .raised g
    | some ed =>
      let g := { g with enemy := g.enemy.deserialize ed }
      match d.player with
      | none => .raised g
      | some pd =>
        let g := { g with player := g.player.deserialize pd }
        match d.cr with
        | none => .raised g
        | some c1 =>
          let g := { g with crit_rate_perk := g.crit_rate_perk.deserialize c1 }
          match d.cd with
          | none => .raised g
          | some c2 =>
            let g := { g with crit_dmg_perk := g.crit_dmg_perk.deserialize c2 }
            match d.ld with
            | none => .raised g
            | some c3 =>
              let g := { g with loot_bonus_perk := g.loot_bonus_perk.deserialize c3 }
              match d.db with
              | none => .raised g
              | some c4 =>
                .ok { g with damage_bonus_perk := g.damage_bonus_perk.deserialize c4 }

/-- Game.check_saved_game: True when the file opens, False on
FileNotFoundError (a JSON parse failure raises, which is out of scope of
the claims on this surface). -/
def check_saved_game (file : SaveFile) : Bool :=
  match file with
  | .missing => false
  | _ => true

end Game

/-! ## Helper lemmas -/

theorem hit_fst (e : Enemy) (d : ℤ) (u : ℝ) :
    (e.hit d u).1 = { e with health := e.health - d } := by
  unfold Enemy.hit
  dsimp only
  split <;> rfl

theorem hit_base_health (e : Enemy) (d : ℤ) (u : ℝ) :
    ((e.hit d u).1).base_health = e.base_health := by
  rw [hit_fst]

/-! ## Claim theorems -/

/-- Claim C10: for every pair of players, deserializing the document
serialized from p into q restores all five stat fields of p verbatim,
whatever state q was in; the +5 base-damage offset happens only in the
constructor and is not re-applied on deserialization. -/
theorem player_deserialize_roundtrip (p q : Player) (l lb bd cd cr : ℤ) :
    q.deserialize p.serialize = p ∧
    (Player.init l lb bd cd cr).base_damage = bd + 5 ∧
    (q.deserialize (Player.init l lb bd cd cr).serialize).base_damage = bd + 5 :=
  ⟨rfl, rfl, rfl⟩

/-- Claim C8: with the constructed parameters (price_scale = 1.2,
bonus_scale = 1, base_price > 0), get_price is floor(base_price * 1.2 ^
level), get_bonus is base_bonus + level, both are monotonically
non-decreasing in level, and at level 0 they equal base_price and
base_bonus. -/
theorem perk_price_bonus_curve (name : String) (bp bb : ℤ) (l l1 l2 : ℕ)
    (hbp : 0 < bp) (hl : l1 ≤ l2) :
    (PerkState.mk name bp bb (6/5) 1 l).get_price = ⌊(bp : ℚ) * (6/5 : ℚ) ^ l⌋ ∧
    (PerkState.mk name bp bb (6/5) 1 l).get_bonus = bb + l ∧
    (PerkState.mk name bp bb (6/5) 1 l1).get_price ≤ (PerkState.mk name bp bb (6/5) 1 l2).get_price ∧
    (PerkState.mk name bp bb (6/5) 1 l1).get_bonus ≤ (PerkState.mk name bp bb (6/5) 1 l2).get_bonus ∧
    (PerkState.mk name bp bb (6/5) 1 0).get_price = bp ∧
    (PerkState.mk name bp bb (6/5) 1 0).get_bonus = bb := by
  have hbp' : (0 : ℚ) ≤ (bp : ℚ) := by exact_mod_cast hbp.le
  have hpow : ∀ n : ℕ, (0 : ℚ) ≤ (bp : ℚ) * (6/5 : ℚ) ^ n := by
    intro n
    exact mul_nonneg hbp' (pow_nonneg (by norm_num) n)
  have hprice : ∀ n : ℕ, (PerkState.mk name bp bb (6/5) 1 n).get_price = ⌊(bp : ℚ) * (6/5 : ℚ) ^ n⌋ := by
    intro n
    exact pyInt_of_nonneg (hpow n)
  have hbonus : ∀ n : ℕ, (PerkState.mk name bp bb (6/5) 1 n).get_bonus = bb + n := by
    intro n
    unfold PerkState.get_bonus
    rw [mul_one, show (bb : ℚ) + (n : ℚ) = ((bb + (n : ℤ) : ℤ) : ℚ) by push_cast; ring, pyInt_intCast]
  refine ⟨hprice l, hbonus l, ?_, ?_, ?_, ?_⟩
  · rw [hprice l1, hprice l2]
    exact Int.floor_le_floor
      (mul_le_mul_of_nonneg_left (pow_le_pow_right₀ (by norm_num) hl) hbp')
  · rw [hbonus l1, hbonus l2]
    omega
  · rw [hprice 0, pow_zero, mul_one, Int.floor_intCast]
  · rw [hbonus 0]
    simp

/-- Witness for the C8 theorem at name = "CR", base_price = 100,
base_bonus = 1, levels 2 and 0 ≤ 1. -/
theorem perk_price_bonus_curve_witness :
    (0 : ℤ) < 100 ∧ (0 : ℕ) ≤ 1 ∧
      ((PerkState.mk (PerkKind.init .cr).name 100 1 (6/5) 1 2).get_price = ⌊(100 : ℚ) * (6/5 : ℚ) ^ 2⌋ ∧
       (PerkState.mk (PerkKind.init .cr).name 100 1 (6/5) 1 2).get_bonus = 1 + 2 ∧
       (PerkState.mk (PerkKind.init .cr).name 100 1 (6/5) 1 0).get_price ≤ (PerkState.mk (PerkKind.init .cr).name 100 1 (6/5) 1 1).get_price ∧
       (PerkState.mk (PerkKind.init .cr).name 100 1 (6/5) 1 0).get_bonus ≤ (PerkState.mk (PerkKind.init .cr).name 100 1 (6/5) 1 1).get_bonus ∧
       (PerkState.mk (PerkKind.init .cr).name 100 1 (6/5) 1 0).get_price = 100 ∧
       (PerkState.mk (PerkKind.init .cr).name 100 1 (6/5) 1 0).get_bonus = 1) :=
  ⟨by norm_num, by norm_num,
    perk_price_bonus_curve (PerkKind.init .cr).name 100 1 2 0 1 (by norm_num) (by norm_num)⟩

/-- Claim C2: buy_perk either rejects the purchase outright (insufficient
loot: nothing at all changes) or deducts exactly the pre-purchase price,
raises the perk level by exactly 1, adds exactly the pre-purchase bonus to
the one bound stat, and leaves every other stat and every other perk field
unchanged. -/
theorem buy_perk_atomic (k : PerkKind) (pk : PerkState) (pl : Player) :
    (pl.loot < pk.get_price → buyPerk k pk pl = (pk, pl)) ∧
    (pk.get_price ≤ pl.loot →
      (buyPerk k pk pl).2.loot = pl.loot - pk.get_price ∧
      (buyPerk k pk pl).1.level = pk.level + 1 ∧
      k.boundStat (buyPerk k pk pl).2 = k.boundStat pl + pk.get_bonus ∧
      (∀ j : PerkKind, j ≠ k → j.boundStat (buyPerk k pk pl).2 = j.boundStat pl) ∧
      (buyPerk k pk pl).1.name = pk.name ∧
      (buyPerk k pk pl).1.base_price = pk.base_price ∧
      (buyPerk k pk pl).1.base_bonus = pk.base_bonus ∧
      (buyPerk k pk pl).1.price_scale = pk.price_scale ∧
      (buyPerk k pk pl).1.bonus_scale = pk.bonus_scale) := by
  constructor
  · intro h
    rw [buyPerk, if_neg (not_le.mpr h)]
  · intro h
    have hb : ∀ j : PerkKind, j ≠ k → j.boundStat (buyPerk k pk pl).2 = j.boundStat pl := by
      intro j hj
      cases k <;> cases j <;>
        first
          | exact absurd rfl hj
          | simp [buyPerk, if_pos h, PerkKind.apply, PerkKind.boundStat]
    refine ⟨?_, ?_, ?_, hb, ?_, ?_, ?_, ?_, ?_⟩ <;>
      cases k <;>
        simp [buyPerk, if_pos h, PerkKind.apply, PerkKind.boundStat, PerkState.upgrade]

/-- Witness for the C2 theorem: the sufficient-funds branch of a
CritRatePerk purchase at loot = 1000, fresh perk (price 100, bonus 1). -/
theorem buy_perk_atomic_witness :
    (PerkKind.init .cr).get_price ≤ (1000 : ℤ) ∧
      (buyPerk .cr (PerkKind.init .cr) (Player.mk 1000 0 6 1 0)).2.loot
        = 1000 - (PerkKind.init .cr).get_price ∧
      (buyPerk .cr (PerkKind.init .cr) (Player.mk 1000 0 6 1 0)).1.level
        = (PerkKind.init .cr).level + 1 ∧
      PerkKind.cr.boundStat (buyPerk .cr (PerkKind.init .cr) (Player.mk 1000 0 6 1 0)).2
        = PerkKind.cr.boundStat (Player.mk 1000 0 6 1 0) + (PerkKind.init .cr).get_bonus := by
  have hp : (PerkKind.init .cr).get_price ≤ (1000 : ℤ) := by
    norm_num [PerkKind.init, PerkState.get_price, pyInt]

  have h := (buy_perk_atomic .cr (PerkKind.init .cr) (Player.mk 1000 0 6 1 0)).2 hp
  exact ⟨hp, h.1, h.2.1, h.2.2.1⟩

/-- Counterexample to claim C3 as stated: the critical-hit draw is made by
random.randint(0, 100), whose support contains 100, so the draw is not
confined to the half-open range [0, 100). -/
theorem calculate_damage_draw_cex :
    (100 : ℤ) ∈ randint 0 100 ∧ (100 : ℤ) ∉ Finset.Ico (0 : ℤ) 100 := by
  constructor <;> simp [randint]

/-- Claim C3 as amended: the draw is a random integer from the closed range
[0, 100] (101 values); for nonnegative base_damage and critical_damage the
result is floor(base_damage * (1 + critical_damage / 100)) exactly when the
draw is strictly below critical_rate, and base_damage unmodified
otherwise. -/
theorem calculate_damage_amended (p : Player) (draw : ℤ)
    (hbd : 0 ≤ p.base_damage) (hcd : 0 ≤ p.critical_damage) :
    (p.calculate_damage draw =
      if draw < p.critical_rate then
        ⌊(p.base_damage : ℚ) * (1 + (p.critical_damage : ℚ) / 100)⌋
      else p.base_damage) ∧
    (∀ d : ℤ, d ∈ randint 0 100 ↔ 0 ≤ d ∧ d ≤ 100) := by
  constructor
  · have hbd' : (0 : ℚ) ≤ (p.base_damage : ℚ) := by exact_mod_cast hbd
    have hcd' : (0 : ℚ) ≤ (p.critical_damage : ℚ) := by exact_mod_cast hcd
    unfold Player.calculate_damage
    dsimp only
    split
    · exact pyInt_of_nonneg (by positivity)
    · exact pyInt_intCast _
  · intro d
    simp [randint, Finset.mem_Icc]

/-- Witness for the amended C3 theorem: base_damage 10, critical_damage 50,
critical_rate 30, draw 10 is a critical and yields floor(10 * 1.5) = 15. -/
theorem calculate_damage_amended_witness :
    (0 : ℤ) ≤ 10 ∧ (0 : ℤ) ≤ 50 ∧ (Player.mk 0 0 10 50 30).calculate_damage 10 = 15 :=
  ⟨by norm_num, by norm_num,
    ((calculate_damage_amended (Player.mk 0 0 10 50 30) 10 (by norm_num) (by norm_num)).1).trans
      (by norm_num)⟩

/-- Claim C7: a click whose position misses the enemy rect, or whose target
is already dead, changes nothing at all: the click handler returns the
player and the enemy exactly as they were. -/
theorem click_miss_noop (p : Player) (mouse_pos : ℤ × ℤ) (e : Enemy)
    (draw : ℤ) (u : ℝ) (h : ¬e.rect.collidepoint mouse_pos ∨ e.is_dead = true) :
    p.click mouse_pos e draw u = (p, e) := by
  unfold Player.click
  rcases h with h | h
  · rw [if_neg]
    intro hc
    exact h hc.1
  · rw [if_neg]
    intro hc
    rw [h] at hc
    exact hc.2 rfl

/-- Witness for the C7 theorem: a click at (0, 0) against the freshly
constructed enemy, whose rect starts at (380, 300). -/
theorem click_miss_noop_witness :
    (¬(Enemy.init (380, 300) (fun _ => ([], []))).rect.collidepoint (0, 0) ∨
        (Enemy.init (380, 300) (fun _ => ([], []))).is_dead = true) ∧
      (Player.mk 0 0 6 1 0).click (0, 0) (Enemy.init (380, 300) (fun _ => ([], []))) 0 0
        = (Player.mk 0 0 6 1 0, Enemy.init (380, 300) (fun _ => ([], []))) := by
  have h : ¬(Enemy.init (380, 300) (fun _ => ([], []))).rect.collidepoint (0, 0) ∨
      (Enemy.init (380, 300) (fun _ => ([], []))).is_dead = true := by
    left
    simp [Enemy.init, Rect.collidepoint]
  exact ⟨h, click_miss_noop (Player.mk 0 0 6 1 0) (0, 0) (Enemy.init (380, 300) (fun _ => ([], []))) 0 0 h⟩

/-- A freshly constructed enemy whose base_health has been set to the given
value (frame assets are irrelevant to the loot computation). -/
def lootEnemy (bh : ℤ) : Enemy :=
  { Enemy.init (380, 300) (fun _ => ([], [])) with base_health := bh }

theorem calculate_loot_count_at_one (e : Enemy) (h : 0 < e.base_health) :
    e.calculate_loot_count 1 = ⌊Real.sqrt (e.base_health : ℝ)⌋ := by
  have h' : (0 : ℝ) < (e.base_health : ℝ) := by exact_mod_cast h
  have hs : (0 : ℝ) < Real.sqrt (e.base_health : ℝ) := Real.sqrt_pos.mpr h'
  have key : (e.base_health : ℝ) * (1 / Real.sqrt (e.base_health : ℝ)) * 1
      = Real.sqrt (e.base_health : ℝ) := by
    rw [mul_one, mul_one_div, div_eq_iff hs.ne']
    exact (Real.mul_self_sqrt h'.le).symm
  unfold Enemy.calculate_loot_count
  dsimp only
  rw [key, pyIntR, if_pos (Real.sqrt_nonneg _)]

/-- Claim C6: for base health 1, 10, 100 and 10000, the loot count with the
uniform draw fixed at 1.0 is exactly the floor of the square root of the
base health, namely 1, 3, 10 and 100. -/
theorem loot_count_floor_sqrt :
    ((lootEnemy 1).calculate_loot_count 1 = ⌊Real.sqrt ((1 : ℤ) : ℝ)⌋ ∧
       (lootEnemy 1).calculate_loot_count 1 = 1) ∧
    ((lootEnemy 10).calculate_loot_count 1 = ⌊Real.sqrt ((10 : ℤ) : ℝ)⌋ ∧
       (lootEnemy 10).calculate_loot_count 1 = 3) ∧
    ((lootEnemy 100).calculate_loot_count 1 = ⌊Real.sqrt ((100 : ℤ) : ℝ)⌋ ∧
       (lootEnemy 100).calculate_loot_count 1 = 10) ∧
    ((lootEnemy 10000).calculate_loot_count 1 = ⌊Real.sqrt ((10000 : ℤ) : ℝ)⌋ ∧
       (lootEnemy 10000).calculate_loot_count 1 = 100) := by
  have h1 := calculate_loot_count_at_one (lootEnemy 1) (by norm_num [lootEnemy, Enemy.init])
  have h10 := calculate_loot_count_at_one (lootEnemy 10) (by norm_num [lootEnemy, Enemy.init])
  have h100 := calculate_loot_count_at_one (lootEnemy 100) (by norm_num [lootEnemy, Enemy.init])
  have h10000 := calculate_loot_count_at_one (lootEnemy 10000) (by norm_num [lootEnemy, Enemy.init])
  have hbh : ∀ bh : ℤ, (lootEnemy bh).base_health = bh := fun _ => rfl
  rw [hbh] at h1 h10 h100 h10000
  have f1 : ⌊Real.sqrt (((1 : ℤ) : ℝ))⌋ = 1 := by
    rw [show (((1 : ℤ) : ℝ)) = (1 : ℝ) by norm_num, Real.sqrt_one]
    norm_num
  have f10 : ⌊Real.sqrt (((10 : ℤ) : ℝ))⌋ = 3 := by
    rw [Int.floor_eq_iff]
    constructor
    · rw [show ((3 : ℤ) : ℝ) = 3 by norm_num]
      rw [Real.le_sqrt' (by norm_num)]
      norm_num
    · rw [show ((3 : ℤ) : ℝ) + 1 = 4 by norm_num]
      rw [Real.sqrt_lt' (by norm_num)]
      norm_num
  have f100 : ⌊Real.sqrt (((100 : ℤ) : ℝ))⌋ = 10 := by
    rw [show Real.sqrt (((100 : ℤ) : ℝ)) = 10 by
      rw [Real.sqrt_eq_iff_mul_self_eq_of_pos (by norm_num)]
      norm_num]
    norm_num
  have f10000 : ⌊Real.sqrt (((10000 : ℤ) : ℝ))⌋ = 100 := by
    rw [show Real.sqrt (((10000 : ℤ) : ℝ)) = 100 by
      rw [Real.sqrt_eq_iff_mul_self_eq_of_pos (by norm_num)]
      norm_num]
    norm_num
  exact ⟨⟨h1, h1.trans f1⟩, ⟨h10, h10.trans f10⟩, ⟨h100, h100.trans f100⟩,
    ⟨h10000, h10000.trans f10000⟩⟩

/-! ## Save/load claims -/

theorem deserialize_surface_roundtrip (s : Surface) :
    Enemy.deserialize_surface (Enemy.serialize_surface s) = s := rfl

theorem frames_roundtrip (fs : List Surface) :
    Enemy.deserialize_frames (Enemy.serialize_frames fs) = fs := by
  induction fs with
  | nil => rfl
  | cons a t ih =>
    simp only [Enemy.serialize_frames, Enemy.deserialize_frames, List.map_cons] at ih ⊢
    rw [ih]
    rfl


theorem enemy_deserialize_spec (e : Enemy) (d : EnemyData) :
    (e.deserialize d).base_health = d.base_health ∧
    (e.deserialize d).health = d.health ∧
    (e.deserialize d).base_health_increase = d.base_health_increase ∧
    (e.deserialize d).base_health_growth_rate = d.base_health_growth_rate ∧
    (e.deserialize d).base_health_growth_factor = d.base_health_growth_factor ∧
    (e.deserialize d).enemy_count = d.enemy_count ∧
    (e.deserialize d).idle_frames = Enemy.deserialize_frames d.idle_frames ∧
    (e.deserialize d).death_frames = Enemy.deserialize_frames d.death_frames ∧
    (e.deserialize d).is_dead = e.is_dead := by
  unfold Enemy.deserialize
  dsimp only
  split <;> exact ⟨rfl, rfl, rfl, rfl, rfl, rfl, rfl, rfl, rfl⟩

theorem load_save_eq (g g' : Game) :
    Game.load_game (SaveFile.doc g.save_game) g' =
      .ok { player := g'.player.deserialize g.player.serialize,
            enemy := g'.enemy.deserialize g.enemy.serialize,
            crit_rate_perk := g'.crit_rate_perk.deserialize g.crit_rate_perk.serialize,
            crit_dmg_perk := g'.crit_dmg_perk.deserialize g.crit_dmg_perk.serialize,
            loot_bonus_perk := g'.loot_bonus_perk.deserialize g.loot_bonus_perk.serialize,
            damage_bonus_perk := g'.damage_bonus_perk.deserialize g.damage_bonus_perk.serialize } :=
  rfl

/-- Claim C1 as amended: loading the document produced by save into any
session restores every Player field, the six serialized Enemy fields, the
frame lists (hence their count and ordering), and all fields of the four
perks; but is_dead is not part of the serialized enemy document, so after
a load it keeps whatever value the loading session already had. -/
theorem save_load_roundtrip_amended (g g' : Game) :
    (Game.load_game (SaveFile.doc g.save_game) g').isRaised = false ∧
    (Game.load_game (SaveFile.doc g.save_game) g').stateOf.player = g.player ∧
    (Game.load_game (SaveFile.doc g.save_game) g').stateOf.enemy.base_health = g.enemy.base_health ∧
    (Game.load_game (SaveFile.doc g.save_game) g').stateOf.enemy.health = g.enemy.health ∧
    (Game.load_game (SaveFile.doc g.save_game) g').stateOf.enemy.base_health_increase = g.enemy.base_health_increase ∧
    (Game.load_game (SaveFile.doc g.save_game) g').stateOf.enemy.base_health_growth_rate = g.enemy.base_health_growth_rate ∧
    (Game.load_game (SaveFile.doc g.save_game) g').stateOf.enemy.base_health_growth_factor = g.enemy.base_health_growth_factor ∧
    (Game.load_game (SaveFile.doc g.save_game) g').stateOf.enemy.enemy_count = g.enemy.enemy_count ∧
    (Game.load_game (SaveFile.doc g.save_game) g').stateOf.enemy.idle_frames = g.enemy.idle_frames ∧
    (Game.load_game (SaveFile.doc g.save_game) g').stateOf.enemy.death_frames = g.enemy.death_frames ∧
    (Game.load_game (SaveFile.doc g.save_game) g').stateOf.crit_rate_perk = g.crit_rate_perk ∧
    (Game.load_game (SaveFile.doc g.save_game) g').stateOf.crit_dmg_perk = g.crit_dmg_perk ∧
    (Game.load_game (SaveFile.doc g.save_game) g').stateOf.loot_bonus_perk = g.loot_bonus_perk ∧
    (Game.load_game (SaveFile.doc g.save_game) g').stateOf.damage_bonus_perk = g.damage_bonus_perk ∧
    (Game.load_game (SaveFile.doc g.save_game) g').stateOf.enemy.is_dead = g'.enemy.is_dead := by
  have hd := enemy_deserialize_spec g'.enemy g.enemy.serialize
  rw [load_save_eq]
  refine ⟨rfl, rfl, hd.1, hd.2.1, hd.2.2.1, hd.2.2.2.1, hd.2.2.2.2.1, hd.2.2.2.2.2.1,
    ?_, ?_, rfl, rfl, rfl, rfl, hd.2.2.2.2.2.2.2.2⟩
  · exact hd.2.2.2.2.2.2.1.trans (frames_roundtrip g.enemy.idle_frames)
  · exact hd.2.2.2.2.2.2.2.1.trans (frames_roundtrip g.enemy.death_frames)

/-- Concrete assets: one idle frame, one death frame for every tier. -/
def flatAssets : Assets := fun _ => ([⟨1, 1, []⟩], [⟨1, 1, []⟩])

/-- The session as Game.__init__ builds it: Player(0, 0, 1, 1, 0), a fresh
Enemy at (800 // 2 - 20, 500 // 2 + 50) = (380, 300), and the four fresh
perks. -/
def baseGame : Game :=
  { player := Player.init 0 0 1 1 0
    enemy := Enemy.init (380, 300) flatAssets
    crit_rate_perk := PerkKind.init .cr
    crit_dmg_perk := PerkKind.init .cd
    loot_bonus_perk := PerkKind.init .lb
    damage_bonus_perk := PerkKind.init .db }

/-- A session whose enemy is currently dead. -/
def deadGame : Game :=
  { baseGame with enemy := { baseGame.enemy with is_dead := true } }

/-- Counterexample to claim C1 as stated: is_dead is not a declared
dataclass field of Enemy, so asdict omits it from the save document;
loading a save whose enemy died into a fresh session leaves is_dead =
false instead of restoring true. -/
theorem save_load_is_dead_cex :
    deadGame.enemy.is_dead = true ∧
    (Game.load_game (SaveFile.doc deadGame.save_game) baseGame).stateOf.enemy.is_dead = false :=
  ⟨rfl, rfl⟩

/-- Claim C4 as amended: loading a missing save file is caught and changes
nothing; a file that fails to parse raises before any mutation, so the
session is untouched though the exception escapes; and a complete document
loads fully. A document missing one of the six entries, however, can
corrupt the session (see the counterexample). -/
theorem load_failure_amended (g : Game) (d : RawSave) (pd : PlayerData)
    (ed : EnemyData) (c1 c2 c3 c4 : PerkData) :
    Game.load_game .missing g = .ok g ∧
    Game.check_saved_game .missing = false ∧
    Game.check_saved_game (.doc d) = true ∧
    Game.load_game .corrupt g = .raised g ∧
    (Game.load_game (.doc ⟨some pd, some ed, some c1, some c2, some c3, some c4⟩) g).isRaised
      = false :=
  ⟨rfl, rfl, rfl, rfl, rfl⟩

/-- A malformed save document: it has an enemy entry but no player entry. -/
def malformedDoc : RawSave :=
  { player := none
    enemy := some
      { base_health := 99, health := 99, base_health_increase := 5,
        base_health_growth_rate := 1/5, base_health_growth_factor := 1,
        enemy_count := 3, idle_frames := [], death_frames := [] }
    cr := none
    cd := none
    ld := none
    db := none }

/-- Counterexample to claim C4 as stated: loading a malformed document
(enemy entry present, player entry missing) raises an uncaught KeyError
AND leaves the prior session corrupted: the enemy was already overwritten
(base_health 10 became 99) when the exception escaped. -/
theorem load_malformed_cex :
    (Game.load_game (SaveFile.doc malformedDoc) baseGame).isRaised = true ∧
    (Game.load_game (SaveFile.doc malformedDoc) baseGame).stateOf.enemy.base_health = 99 ∧
    baseGame.enemy.base_health = 10 :=
  ⟨rfl, rfl, rfl⟩

/-! ## Enemy growth claims -/

theorem animTag_idle_ne_death : AnimTag.idle ≠ AnimTag.death := by
  intro h
  cases h

theorem animTag_death_ne_idle : AnimTag.death ≠ AnimTag.idle := by
  intro h
  cases h

theorem shrinkStep_base_health (e : Enemy) : e.shrinkStep.base_health = e.base_health := by
  unfold Enemy.shrinkStep
  dsimp only
  split
  · split <;> rfl
  · rfl

theorem growStep_base_health (e : Enemy) : e.growStep.base_health = e.base_health := by
  unfold Enemy.growStep
  dsimp only
  split
  · split <;> rfl
  · rfl

theorem rectStep_base_health (e : Enemy) : e.rectStep.base_health = e.base_health := rfl

theorem animStep_base_health (e : Enemy) : e.animStep.base_health = e.base_health := by
  unfold Enemy.animStep
  dsimp only
  split <;> rfl

theorem speedStep_base_health (e : Enemy) : e.speedStep.base_health = e.base_health := by
  unfold Enemy.speedStep
  dsimp only
  split <;> rfl

theorem deathPhase_fields (e : Enemy) :
    e.deathPhase.base_health = e.base_health ∧
    e.deathPhase.base_health_increase = e.base_health_increase ∧
    e.deathPhase.base_health_growth_factor = e.base_health_growth_factor ∧
    e.deathPhase.base_health_growth_rate = e.base_health_growth_rate := by
  unfold Enemy.deathPhase Enemy.play_death_animation
  dsimp only
  split
  · split <;> exact ⟨rfl, rfl, rfl, rfl⟩
  · exact ⟨rfl, rfl, rfl, rfl⟩

theorem play_idle_base_health (e : Enemy) :
    e.play_idle_animation.base_health = e.base_health := by
  unfold Enemy.play_idle_animation
  split <;> rfl

theorem reset_health_base_health (e : Enemy) :
    e.reset_health.base_health = e.base_health := by
  unfold Enemy.reset_health
  dsimp only
  rw [play_idle_base_health]

theorem deathEnd_chain_base_health (assets : Assets) (e : Enemy) :
    (((((e.update_frames assets).growthStep).increase_health).reset_health).play_idle_animation).base_health
      = e.base_health +
        pyRound ((e.base_health_increase : ℚ) *
          (e.base_health_growth_factor + e.base_health_growth_rate)) := by
  rw [play_idle_base_health, reset_health_base_health]
  rfl

theorem update_base_health_of_not_cond (assets : Assets) (e : Enemy)
    (h : ¬e.deathPhase.deathEndCond) :
    (Enemy.update assets e).base_health = e.base_health := by
  unfold Enemy.update
  dsimp only
  rw [if_neg h, speedStep_base_health, animStep_base_health, rectStep_base_health,
    growStep_base_health, shrinkStep_base_health, (deathPhase_fields e).1]

theorem update_base_health_of_cond (assets : Assets) (e : Enemy)
    (h : e.deathPhase.deathEndCond) :
    (Enemy.update assets e).base_health = e.base_health +
      pyRound ((e.base_health_increase : ℚ) *
        (e.base_health_growth_factor + e.base_health_growth_rate)) := by
  unfold Enemy.update
  dsimp only
  rw [if_pos h, deathEnd_chain_base_health, (deathPhase_fields e).1,
    (deathPhase_fields e).2.1, (deathPhase_fields e).2.2.1, (deathPhase_fields e).2.2.2]

/-- The enemy state after the first full death cycle from the initial
state, computed by hand. -/
def cycleR1 : Enemy :=
  { base_health := 16, health := 16, base_health_increase := 5,
    base_health_growth_rate := 1/5, base_health_growth_factor := 6/5,
    enemy_count := 1, levels := 7, position := (380, 300),
    death_frames := [⟨1, 1, []⟩], idle_frames := [⟨1, 1, []⟩],
    current_animation := .idle, current_frame_index := 0,
    animation_speed := 1/10, animation_timer := 0, size := (250, 250),
    rect := { x := 380, y := 300, w := 250, h := 250 },
    original_size := (250, 250), shrink_duration := 1/10, grow_duration := 1/10,
    shrink_timer := 0, grow_timer := 0, is_shrinking := false,
    is_growing := false, is_dead := false }

/-- State after killing the fresh enemy (10 damage against 10 health) and
running one update, which passes through the single-frame death animation
end in the same tick. -/
noncomputable def cycleE1 : Enemy :=
  Enemy.update flatAssets ((Enemy.init (380, 300) flatAssets).hit 10 1).1

/-- State after killing the tier-1 enemy (16 damage against 16 health) and
running one more update. -/
noncomputable def cycleE2 : Enemy :=
  Enemy.update flatAssets (cycleE1.hit 16 1).1

theorem cycle1_eq : cycleE1 = cycleR1 := by
  have k0 : ((Enemy.init (380, 300) flatAssets).hit 10 1).1
      = { Enemy.init (380, 300) flatAssets with health := 0 } := by
    rw [hit_fst]
    norm_num [Enemy.init]
  rw [cycleE1, k0]
  norm_num [Enemy.update, Enemy.deathPhase, Enemy.play_death_animation, Enemy.deathEndCond,
    Enemy.currentFrames, flatAssets, Enemy.init, Enemy.update_frames, Enemy.growthStep,
    Enemy.increase_health, Enemy.reset_health, Enemy.play_idle_animation, pyRound,
    animTag_idle_ne_death, animTag_death_ne_idle, cycleR1]

/-- Claim C5: starting from base_health = 10 and growth factor 1.0, the
first completed death cycle yields growth factor 1.2 and base_health
10 + round(5 * 1.2) = 16 with health reset to 16 and is_dead cleared; the
second yields growth factor 1.4 and base_health 16 + round(5 * 1.4) = 23.
The death-animation-end branch of update is the sole point where
base_health changes (hit, the click feedback animation and the non-branch
update paths preserve it), and base_health strictly increases there
whenever increase * (factor + rate) exceeds one half, as it does in every
reachable configuration (increase = 5, factor at least 1, rate 0.2). -/
theorem enemy_death_growth_recurrence (a : Assets) (e : Enemy) (d : ℤ) (u : ℝ) :
    (cycleE1.base_health = 16 ∧ cycleE1.base_health_growth_factor = 6/5 ∧
      cycleE1.health = 16 ∧ cycleE1.is_dead = false) ∧
    (cycleE2.base_health = 23 ∧ cycleE2.base_health_growth_factor = 7/5 ∧
      cycleE2.health = 23 ∧ cycleE2.is_dead = false) ∧
    ((e.hit d u).1).base_health = e.base_health ∧
    e.play_click_animation.base_health = e.base_health ∧
    (¬e.deathPhase.deathEndCond → (Enemy.update a e).base_health = e.base_health) ∧
    (e.deathPhase.deathEndCond →
      (Enemy.update a e).base_health = e.base_health +
        pyRound ((e.base_health_increase : ℚ) *
          (e.base_health_growth_factor + e.base_health_growth_rate)) ∧
      (1/2 < (e.base_health_increase : ℚ) *
          (e.base_health_growth_factor + e.base_health_growth_rate) →
        e.base_health < (Enemy.update a e).base_health)) := by
  refine ⟨?_, ?_, hit_base_health e d u, ?_, update_base_health_of_not_cond a e, ?_⟩
  · rw [cycle1_eq]
    exact ⟨rfl, rfl, rfl, rfl⟩
  · have k0 : (cycleE1.hit 16 1).1 = { cycleR1 with health := 0 } := by
      rw [hit_fst, cycle1_eq]
      norm_num [cycleR1]
    rw [cycleE2, k0]
    norm_num [Enemy.update, Enemy.deathPhase, Enemy.play_death_animation, Enemy.deathEndCond,
      Enemy.currentFrames, flatAssets, cycleR1, Enemy.update_frames, Enemy.growthStep,
      Enemy.increase_health, Enemy.reset_health, Enemy.play_idle_animation, pyRound,
      animTag_idle_ne_death, animTag_death_ne_idle]
  · unfold Enemy.play_click_animation
    split <;> rfl
  · intro h
    refine ⟨update_base_health_of_cond a e h, ?_⟩
    intro hv
    rw [update_base_health_of_cond a e h]
    have h1 := one_le_pyRound hv
    omega

/-- A tier-1 enemy sitting on the last frame of its death animation. -/
def deathEndEnemy : Enemy :=
  { cycleR1 with is_dead := true, current_animation := .death }

/-- Witness for the C5 theorem: the death-animation-end branch at a
concrete dead enemy on its last death frame, with increase 5, factor 1.2
and rate 0.2, raises base_health from 16 to 16 + round(5 * 1.4) = 23. -/
theorem enemy_death_growth_recurrence_witness :
    deathEndEnemy.deathPhase.deathEndCond ∧
    (1/2 : ℚ) < (deathEndEnemy.base_health_increase : ℚ) *
      (deathEndEnemy.base_health_growth_factor + deathEndEnemy.base_health_growth_rate) ∧
    (Enemy.update flatAssets deathEndEnemy).base_health = deathEndEnemy.base_health +
      pyRound ((deathEndEnemy.base_health_increase : ℚ) *
        (deathEndEnemy.base_health_growth_factor + deathEndEnemy.base_health_growth_rate)) ∧
    deathEndEnemy.base_health < (Enemy.update flatAssets deathEndEnemy).base_health := by
  have hc : deathEndEnemy.deathPhase.deathEndCond := by
    norm_num [deathEndEnemy, cycleR1, Enemy.deathPhase, Enemy.deathEndCond, Enemy.currentFrames]
  have hv : (1/2 : ℚ) < (deathEndEnemy.base_health_increase : ℚ) *
      (deathEndEnemy.base_health_growth_factor + deathEndEnemy.base_health_growth_rate) := by
    norm_num [deathEndEnemy, cycleR1]
  have h := (enemy_death_growth_recurrence flatAssets deathEndEnemy 0 0).2.2.2.2.2 hc
  exact ⟨hc, hv, h.1, h.2 hv⟩

/-! ## Critical-rate claims -/

/-- One in-game session action in the scope of claim C9: a click (with its
two random draws) or a CritRatePerk purchase attempt. -/
inductive SessionAct
  | click (mouse_pos : ℤ × ℤ) (draw : ℤ) (u : ℝ)
  | buyCR

/-- The pieces of session state these actions touch. -/
structure Session where
  perk : PerkState
  player : Player
  enemy : Enemy

noncomputable def SessionAct.step : SessionAct → Session → Session
  | .click mp d u, s =>
    let r := s.player.click mp s.enemy d u
    { s with player := r.1, enemy := r.2 }
  | .buyCR, s =>
    let r := buyPerk .cr s.perk s.player
    { s with perk := r.1, player := r.2 }

noncomputable def runSession : List SessionAct → Session → Session
  | [], s => s
  | a :: rest, s => runSession rest (a.step s)

/-- The session as Game.__init__ creates it. -/
def initialSession : Session :=
  { perk := PerkKind.init .cr
    player := Player.init 0 0 1 1 0
    enemy := Enemy.init (380, 300) flatAssets }

theorem click_critical_rate (p : Player) (mp : ℤ × ℤ) (e : Enemy) (d : ℤ) (u : ℝ) :
    (p.click mp e d u).1.critical_rate = p.critical_rate := by
  unfold Player.click
  dsimp only
  split <;> rfl

theorem step_invariant (s : Session) (a : SessionAct)
    (h : s.perk.base_bonus = 1 ∧ s.perk.bonus_scale = 1 ∧ 0 ≤ s.player.critical_rate) :
    (a.step s).perk.base_bonus = 1 ∧ (a.step s).perk.bonus_scale = 1 ∧
      0 ≤ (a.step s).player.critical_rate ∧
      s.player.critical_rate ≤ (a.step s).player.critical_rate := by
  cases a with
  | click mp d u =>
    unfold SessionAct.step
    dsimp only
    rw [click_critical_rate]
    exact ⟨h.1, h.2.1, h.2.2, le_refl _⟩
  | buyCR =>
    have hb : 0 ≤ s.perk.get_bonus := by
      unfold PerkState.get_bonus
      rw [h.1, h.2.1, mul_one,
        show ((1 : ℤ) : ℚ) + (s.perk.level : ℚ) = (((1 + s.perk.level : ℤ)) : ℚ) by push_cast; ring,
        pyInt_intCast]
      positivity
    unfold SessionAct.step buyPerk
    dsimp only
    split
    · dsimp only [PerkKind.apply, PerkState.upgrade]
      refine ⟨h.1, h.2.1, ?_, ?_⟩
      · have := h.2.2
        omega
      · omega
    · exact ⟨h.1, h.2.1, h.2.2, le_refl _⟩

theorem runSession_invariant (acts : List SessionAct) (s : Session)
    (h : s.perk.base_bonus = 1 ∧ s.perk.bonus_scale = 1 ∧ 0 ≤ s.player.critical_rate) :
    0 ≤ (runSession acts s).player.critical_rate := by
  induction acts generalizing s with
  | nil => exact h.2.2
  | cons a rest ih =>
    have hs := step_invariant s a h
    exact ih (a.step s) ⟨hs.1, hs.2.1, hs.2.2.1⟩

/-- Claim C9 as amended: critical_rate starts at 0 in the initial session
and stays nonnegative under every sequence of clicks and CritRatePerk
purchases; the claimed upper bound of 100 is not maintained by the code
(see the counterexample). -/
theorem crit_rate_nonneg_under_session (acts : List SessionAct) :
    initialSession.player.critical_rate = 0 ∧
    0 ≤ (runSession acts initialSession).player.critical_rate :=
  ⟨rfl, runSession_invariant acts initialSession ⟨rfl, rfl, by norm_num [initialSession, Player.init]⟩⟩

/-- A player inside the claimed invariant (critical_rate = 100, within
[0, 100]) holding exactly the price of a fresh CritRatePerk. -/
def richCapPlayer : Player :=
  { loot := 100, loot_bonus := 0, base_damage := 6, critical_damage := 1, critical_rate := 100 }

/-- Counterexample to claim C9 as stated: CritRatePerk.apply adds its bonus
without any cap, so one successful purchase from critical_rate = 100
yields 101 > 100. -/
theorem crit_rate_cap_cex :
    (0 ≤ richCapPlayer.critical_rate ∧ richCapPlayer.critical_rate ≤ 100) ∧
    100 < (buyPerk .cr (PerkKind.init .cr) richCapPlayer).2.critical_rate := by
  constructor
  · constructor <;> norm_num [richCapPlayer]
  · norm_num [buyPerk, PerkKind.init, PerkState.get_price, PerkState.get_bonus,
      PerkKind.apply, PerkState.upgrade, pyInt, richCapPlayer]
